import Mathlib

/-!
Shallow embedding of `src/main.py` of `astrbot_plugin_llm_mute`, the
per-session LLM admission gate: mute windows (`muted_until`), minimum-interval
throttling (`last_generated`), in-flight deduplication (`generating`), and
the JSON snapshot (`_save` / `_load`).

Timestamps (Python floats from `datetime.now().timestamp()` and message
timestamps) are modelled as rationals; durations from the command layer are
integers, as in the Python type annotations. Python dicts are modelled as
association lists with overwrite-on-insert; the Python `set` is a `Finset`.
Wall-clock reads (`datetime.now()`) become explicit `current_ts` arguments.
Each mutating handler additionally returns a `Bool` recording whether it
invoked `_save` (the persistence side effect), so that save-triggering
behaviour is observable in the model.
-/

namespace LLMMute

abbrev SessionId := String

/-- `m[k]` on a Python dict, modelled on an association list. -/
def lookupKey {α : Type} : List (SessionId × α) → SessionId → Option α
  | [], _ => none
  | p :: rest, k => if p.1 = k then some p.2 else lookupKey rest k

/-- `m.pop(k, None)` on a Python dict: remove the binding for `k` if present. -/
def eraseKey {α : Type} : List (SessionId × α) → SessionId → List (SessionId × α)
  | [], _ => []
  | p :: rest, k => if p.1 = k then eraseKey rest k else p :: eraseKey rest k

/-- `m[k] = v` on a Python dict: overwrite any existing binding. -/
def setKey {α : Type} (m : List (SessionId × α)) (k : SessionId) (v : α) :
    List (SessionId × α) :=
  (k, v) :: eraseKey m k

/-- The mutable per-plugin state: `muted_until`, `generating`, `last_generated`
(`__init__`, lines 28-30 of `src/main.py`). -/
structure PluginState where
  muted_until : List (SessionId × ℚ)
  generating : Finset SessionId
  last_generated : List (SessionId × ℚ)
deriving DecidableEq

/-- The configuration options the gate reads:
`persistence.enabled`, `mute_command.enabled`, `mute_command.default_duration`,
`llm_interval.interval`. -/
structure Config where
  persistence_enabled : Bool
  mute_command_enabled : Bool
  default_duration : Int
  interval : ℚ

/-- `_is_muted` (lines 75-87): no entry ⇒ `false`; a live entry
(`current_ts < unmute_ts`) ⇒ `true`, state untouched; an expired entry is
popped and `false` is returned. The wall-clock read `datetime.now()` is the
explicit `current_ts` argument. -/
def is_muted (s : PluginState) (sid : SessionId) (current_ts : ℚ) :
    Bool × PluginState :=
  match lookupKey s.muted_until sid with
  | none => (false, s)
  | some unmute_ts =>
    if current_ts < unmute_ts then
      (true, s)
    else
      (false, { s with muted_until := eraseKey s.muted_until sid })

/-- `_mute` (lines 89-102): expiry := now + duration (default duration from
config when the caller passes none), overwriting any existing entry; then
`_save` iff persistence is enabled. The returned `Bool` records whether
`_save` ran. -/
def mute (cfg : Config) (s : PluginState) (sid : SessionId)
    (duration : Option Int) (now : ℚ) : PluginState × Bool :=
  let d : Int := duration.getD cfg.default_duration
  ({ s with muted_until := setKey s.muted_until sid (now + (d : ℚ)) },
    cfg.persistence_enabled)

/-- `_unmute` (lines 104-116): returns `false` and changes nothing (no save)
when no entry exists; otherwise pops the entry, saves iff persistence is
enabled, and returns `true`. Result: (removed?, new state, saved?). -/
def unmute (cfg : Config) (s : PluginState) (sid : SessionId) :
    Bool × PluginState × Bool :=
  match lookupKey s.muted_until sid with
  | none => (false, s, false)
  | some _ =>
    (true, { s with muted_until := eraseKey s.muted_until sid },
      cfg.persistence_enabled)

/-- The observable result of `get_mute_left_time`: the "未禁言" (not muted)
string, or `sec2str(unmute_ts - current_ts)`; we keep the raw difference. -/
inductive MuteLeft
  | unmuted
  | left (total : ℚ)
deriving DecidableEq

/-- `get_mute_left_time` (lines 118-128): "未禁言" when no entry is present
(the entry's liveness is NOT re-checked); otherwise `unmute_ts - current_ts`.
-/
def get_mute_left_time (s : PluginState) (sid : SessionId) (current_ts : ℚ) :
    MuteLeft :=
  match lookupKey s.muted_until sid with
  | none => .unmuted
  | some unmute_ts => .left (unmute_ts - current_ts)

/-- The cooldown test of `on_llm_req` (lines 154-156):
`msg_time - last_generated.get(sid, 0) < interval`. -/
def within_cooldown (cfg : Config) (s : PluginState) (sid : SessionId)
    (msg_time : ℚ) : Bool :=
  msg_time - ((lookupKey s.last_generated sid).getD 0) < cfg.interval

/-- The outcome of `on_llm_req`: any value other than `admitted` corresponds
to an `event.stop_event()` call with the matching log reason. -/
inductive Decision
  | admitted
  | rejectMuted
  | rejectCooldown
  | rejectGenerating
deriving DecidableEq

/-- `on_llm_req` (lines 138-166): mute check (against wall-clock
`current_ts`), then cooldown check (against the request's own `msg_time`),
then in-flight check; on admission `sid` is added to `generating` and the
event is not stopped. -/
def on_llm_req (cfg : Config) (s : PluginState) (sid : SessionId)
    (current_ts msg_time : ℚ) : Decision × PluginState :=
  match is_muted s sid current_ts with
  | (true, s1) => (.rejectMuted, s1)
  | (false, s1) =>
    if within_cooldown cfg s1 sid msg_time then
      (.rejectCooldown, s1)
    else if sid ∈ s1.generating then
      (.rejectGenerating, s1)
    else
      (.admitted, { s1 with generating := insert sid s1.generating })

/-- `on_llm_resp` (lines 168-177): remove the in-flight mark if present, then
unconditionally record `last_generated[sid] = now`. The handler contains no
`_save` call, so the save flag it returns is always `false`. -/
def on_llm_resp (_cfg : Config) (s : PluginState) (sid : SessionId)
    (now : ℚ) : PluginState × Bool :=
  let s1 :=
    if sid ∈ s.generating then { s with generating := s.generating.erase sid }
    else s
  ({ s1 with last_generated := setKey s1.last_generated sid now }, false)

/-- The in-flight check-and-set fragment of `on_llm_req` (lines 161-166):
fail without state change if `sid` is already generating, otherwise mark it
and succeed. Under the host's asyncio event loop the fragment runs without an
intervening await, so concurrent invocations execute in some serial order. -/
def tryBegin (s : PluginState) (sid : SessionId) : Bool × PluginState :=
  if sid ∈ s.generating then (false, s)
  else (true, { s with generating := insert sid s.generating })

/-- The in-flight removal fragment of `on_llm_resp` (lines 175-176). -/
def endGen (s : PluginState) (sid : SessionId) : PluginState :=
  if sid ∈ s.generating then { s with generating := s.generating.erase sid }
  else s

/-- The snapshot blob written by `_save` (lines 40-58), at the JSON object
level: a list of top-level fields, each mapping session ids to epoch
instants. -/
abbrev Blob := List (SessionId × List (SessionId × ℚ))

/-- `_save` (lines 40-58): serialize exactly the two maps `muted_until` and
`last_generated` as the two top-level fields of the blob. -/
def save (s : PluginState) : Blob :=
  [("muted_until", s.muted_until), ("last_generated", s.last_generated)]

/-- `_load` (lines 60-73): `data.get("muted_until") or dict()` — a missing
top-level field yields an empty map. Returns the (muted_until,
last_generated) pair read back. -/
def load (blob : Blob) : List (SessionId × ℚ) × List (SessionId × ℚ) :=
  ((lookupKey blob "muted_until").getD [],
    (lookupKey blob "last_generated").getD [])

/-- A demonstration configuration shared by the concrete witnesses:
persistence on, mute command on, default duration 60 s, interval 60 s. -/
def demoConfig : Config := ⟨true, true, 60, 60⟩

/-! ### Helper lemmas about the dict model and `_is_muted` -/

theorem lookupKey_eraseKey_self {α : Type} (m : List (SessionId × α))
    (k : SessionId) : lookupKey (eraseKey m k) k = none := by
  induction m with
  | nil => rfl
  | cons p rest ih =>
    by_cases h : p.1 = k
    · simpa [eraseKey, h] using ih
    · simpa [eraseKey, lookupKey, h] using ih

theorem lookupKey_setKey_self {α : Type} (m : List (SessionId × α))
    (k : SessionId) (v : α) : lookupKey (setKey m k v) k = some v := by
  simp [setKey, lookupKey]

theorem is_muted_of_none {s : PluginState} {sid : SessionId} (t : ℚ)
    (h : lookupKey s.muted_until sid = none) :
    is_muted s sid t = (false, s) := by
  simp [is_muted, h]

theorem is_muted_live {s : PluginState} {sid : SessionId} {t e : ℚ}
    (h : lookupKey s.muted_until sid = some e) (ht : t < e) :
    is_muted s sid t = (true, s) := by
  simp [is_muted, h, ht]

theorem is_muted_expired {s : PluginState} {sid : SessionId} {t e : ℚ}
    (h : lookupKey s.muted_until sid = some e) (ht : e ≤ t) :
    is_muted s sid t
      = (false, { s with muted_until := eraseKey s.muted_until sid }) := by
  simp [is_muted, h, not_lt.mpr ht]

/-- `_is_muted` never touches `generating` or `last_generated`. -/
theorem is_muted_snd_fields (s : PluginState) (sid : SessionId) (t : ℚ) :
    (is_muted s sid t).2.generating = s.generating
    ∧ (is_muted s sid t).2.last_generated = s.last_generated := by
  rcases he : lookupKey s.muted_until sid with _ | e
  · simp [is_muted, he]
  · by_cases ht : t < e <;> simp [is_muted, he, ht]

/-- If `_is_muted` answers `true`, the state is returned unchanged. -/
theorem is_muted_fst_true {s : PluginState} {sid : SessionId} {t : ℚ}
    (h : (is_muted s sid t).1 = true) : is_muted s sid t = (true, s) := by
  rcases he : lookupKey s.muted_until sid with _ | e
  · rw [is_muted_of_none t he] at h; simp at h
  · by_cases ht : t < e
    · exact is_muted_live he ht
    · rw [is_muted_expired he (not_lt.mp ht)] at h; simp at h

/-! ### Claim theorems -/

/-- C2: after `mute(s, now, d)` with `d ≥ 0`, `_is_muted(s, t)` answers `true`
and leaves the entry (indeed the whole state) intact for every
`t ∈ [now, now + d)`, and answers `false` and removes the entry for every
`t ≥ now + d`; a session with no mute entry is never muted. -/
theorem mute_window_correct (cfg : Config) (s : PluginState) (sid : SessionId)
    (now t : ℚ) (d : ℤ) (_hd : 0 ≤ d) :
    (now ≤ t → t < now + (d : ℚ) →
      is_muted (mute cfg s sid (some d) now).1 sid t
        = (true, (mute cfg s sid (some d) now).1))
    ∧ (now + (d : ℚ) ≤ t →
      (is_muted (mute cfg s sid (some d) now).1 sid t).1 = false
      ∧ lookupKey (is_muted (mute cfg s sid (some d) now).1 sid t).2.muted_until
          sid = none)
    ∧ (lookupKey s.muted_until sid = none → (is_muted s sid t).1 = false) := by
  have hl : lookupKey (mute cfg s sid (some d) now).1.muted_until sid
      = some (now + (d : ℚ)) := by
    simpa [mute] using lookupKey_setKey_self s.muted_until sid (now + (d : ℚ))
  refine ⟨fun _ h2 => is_muted_live hl h2, fun h => ?_, fun h => ?_⟩
  · rw [is_muted_expired hl h]
    simpa [mute, setKey, eraseKey] using
      lookupKey_eraseKey_self (eraseKey s.muted_until sid) sid
  · rw [is_muted_of_none t h]

/-- Witness for C2 at the spec's concrete scenario:
`mute("sid1", now=1000, duration=60)` then `isMuted("sid1", 1030)` is `true`. -/
theorem mute_window_correct_witness :
    ((0 : ℤ) ≤ 60 ∧ (1000 : ℚ) ≤ 1030 ∧ (1030 : ℚ) < 1000 + ((60 : ℤ) : ℚ))
    ∧ is_muted (mute demoConfig ⟨[], ∅, []⟩ "sid1" (some 60) 1000).1 "sid1" 1030
        = (true, (mute demoConfig ⟨[], ∅, []⟩ "sid1" (some 60) 1000).1) :=
  ⟨⟨by norm_num, by norm_num, by norm_num⟩,
    (mute_window_correct demoConfig ⟨[], ∅, []⟩ "sid1" 1000 1030 60
      (by norm_num)).1 (by norm_num) (by norm_num)⟩

/-- C8: `_unmute` removes the mute entry, saves (iff persistence is enabled)
and returns `true` when an entry is present; it is a no-op returning `false`
when no entry is present; after a successful unmute the session is no longer
muted at any time. -/
theorem unmute_spec (cfg : Config) (s : PluginState) (sid : SessionId)
    (t : ℚ) :
    (lookupKey s.muted_until sid = none → unmute cfg s sid = (false, s, false))
    ∧ (∀ e, lookupKey s.muted_until sid = some e →
      unmute cfg s sid
        = (true, { s with muted_until := eraseKey s.muted_until sid },
            cfg.persistence_enabled)
      ∧ (is_muted { s with muted_until := eraseKey s.muted_until sid } sid
          t).1 = false) := by
  refine ⟨fun h => by simp [unmute, h], fun e he => ⟨by simp [unmute, he], ?_⟩⟩
  have : lookupKey (eraseKey s.muted_until sid) sid = none :=
    lookupKey_eraseKey_self s.muted_until sid
  rw [is_muted_of_none (s := { s with muted_until := eraseKey s.muted_until sid })
    t this]

/-- Witness for C8: unmuting `"sid1"` with a present entry returns `true`,
and unmuting it when absent returns `false`. -/
theorem unmute_spec_witness :
    lookupKey [("sid1", (1060 : ℚ))] "sid1" = some 1060
    ∧ (unmute demoConfig ⟨[("sid1", 1060)], ∅, []⟩ "sid1"
        = (true, ⟨[], ∅, []⟩, true)
      ∧ (is_muted (⟨[], ∅, []⟩ : PluginState) "sid1" 1030).1 = false)
    ∧ unmute demoConfig ⟨[], ∅, []⟩ "sid1" = (false, ⟨[], ∅, []⟩, false) := by
  refine ⟨rfl, ?_, ((unmute_spec demoConfig ⟨[], ∅, []⟩ "sid1" 1030).1 rfl)⟩
  have h := ((unmute_spec demoConfig ⟨[("sid1", 1060)], ∅, []⟩ "sid1" 1030).2
    1060 rfl)
  exact ⟨h.1.trans rfl, h.2⟩

/-- C10: `_mute` accepts a negative duration `d` without error and records
expiry `now + d`, which lies in the past, so every muted-check at any
`t ≥ now` answers `false`, removes the entry, and any further check still
answers `false`. -/
theorem negative_mute_no_effect (cfg : Config) (s : PluginState)
    (sid : SessionId) (now : ℚ) (d : ℤ) (hd : d < 0) (t t' : ℚ)
    (ht : now ≤ t) :
    lookupKey (mute cfg s sid (some d) now).1.muted_until sid
      = some (now + (d : ℚ))
    ∧ now + (d : ℚ) < now
    ∧ (is_muted (mute cfg s sid (some d) now).1 sid t).1 = false
    ∧ lookupKey (is_muted (mute cfg s sid (some d) now).1 sid t).2.muted_until
        sid = none
    ∧ (is_muted (is_muted (mute cfg s sid (some d) now).1 sid t).2 sid t').1
        = false := by
  have hl : lookupKey (mute cfg s sid (some d) now).1.muted_until sid
      = some (now + (d : ℚ)) := by
    simpa [mute] using lookupKey_setKey_self s.muted_until sid (now + (d : ℚ))
  have hpast : now + (d : ℚ) < now := by
    have : (d : ℚ) < 0 := by exact_mod_cast hd
    linarith
  have hexp : now + (d : ℚ) ≤ t := le_trans hpast.le ht
  have hnone : lookupKey (is_muted (mute cfg s sid (some d) now).1 sid
      t).2.muted_until sid = none := by
    rw [is_muted_expired hl hexp]
    simpa [mute, setKey, eraseKey] using
      lookupKey_eraseKey_self (eraseKey s.muted_until sid) sid
  refine ⟨hl, hpast, ?_, hnone, ?_⟩
  · rw [is_muted_expired hl hexp]
  · rw [is_muted_of_none t' hnone]

/-- C5 counterexample: the claim says the remaining-mute-time query returns
the unmuted result when the entry is not live and never returns a negative
value; but `get_mute_left_time` only checks presence, not liveness: with an
entry expired at 10 queried at time 20 it returns `10 - 20 < 0`. -/
theorem mute_left_time_stale_counterexample :
    ¬ ((20 : ℚ) < 10)
    ∧ get_mute_left_time ⟨[("sid1", 10)], ∅, []⟩ "sid1" 20
        = MuteLeft.left (10 - 20)
    ∧ (10 - 20 : ℚ) < 0 :=
  ⟨by norm_num, by simp [get_mute_left_time, lookupKey], by norm_num⟩

/-- C5 amended: the query returns the unmuted result iff the session has no
entry at all (liveness is not re-evaluated); with an entry of expiry `e` it
returns `e - now`, which is nonnegative whenever the entry is still live but
may be negative for an expired entry. -/
theorem mute_left_time_amended (s : PluginState) (sid : SessionId) (t : ℚ) :
    (get_mute_left_time s sid t = .unmuted ↔ lookupKey s.muted_until sid = none)
    ∧ (∀ e, lookupKey s.muted_until sid = some e →
      get_mute_left_time s sid t = .left (e - t)
      ∧ (t < e → 0 ≤ e - t)) := by
  constructor
  · rcases h : lookupKey s.muted_until sid with _ | e <;>
      simp [get_mute_left_time, h]
  · intro e he
    exact ⟨by simp [get_mute_left_time, he], fun h' => by linarith⟩

/-- Witness for C5 amended: a live entry expiring at 1060 queried at 1030
reports 30 seconds left, a nonnegative amount. -/
theorem mute_left_time_amended_witness :
    lookupKey [("sid1", (1060 : ℚ))] "sid1" = some 1060
    ∧ (1030 : ℚ) < 1060
    ∧ get_mute_left_time ⟨[("sid1", 1060)], ∅, []⟩ "sid1" 1030
        = .left (1060 - 1030)
    ∧ (0 : ℚ) ≤ 1060 - 1030 :=
  have h := (mute_left_time_amended ⟨[("sid1", 1060)], ∅, []⟩ "sid1" 1030).2
    1060 rfl
  ⟨rfl, by norm_num, h.1, h.2 (by norm_num)⟩

/-- C6: when the session is muted at request time (and also within cooldown),
`on_llm_req` rejects with the muted reason — the mute check runs first — and
returns the state completely unchanged, so `last_generated` and the in-flight
set are untouched. -/
theorem muted_priority (cfg : Config) (s : PluginState) (sid : SessionId)
    (now msg : ℚ) (hm : (is_muted s sid now).1 = true)
    (_hc : within_cooldown cfg s sid msg = true) :
    on_llm_req cfg s sid now msg = (.rejectMuted, s) := by
  simp [on_llm_req, is_muted_fst_true hm]

/-- Witness for C6: a session muted until 2000 and with a completion at 990
(interval 60), at request time 1000, is rejected as muted with the state
unchanged. -/
theorem muted_priority_witness :
    (is_muted ⟨[("sid1", 2000)], ∅, [("sid1", 990)]⟩ "sid1" 1000).1 = true
    ∧ within_cooldown demoConfig ⟨[("sid1", 2000)], ∅, [("sid1", 990)]⟩
        "sid1" 1000 = true
    ∧ on_llm_req demoConfig ⟨[("sid1", 2000)], ∅, [("sid1", 990)]⟩ "sid1"
        1000 1000
        = (.rejectMuted, ⟨[("sid1", 2000)], ∅, [("sid1", 990)]⟩) :=
  ⟨by decide, by norm_num [within_cooldown, lookupKey, demoConfig],
    muted_priority demoConfig ⟨[("sid1", 2000)], ∅, [("sid1", 990)]⟩ "sid1"
      1000 1000 (by decide)
      (by norm_num [within_cooldown, lookupKey, demoConfig])⟩

/-- C1: `on_llm_req` admits (and then adds `sid` to the generating set)
iff the session is not muted at the wall-clock instant `now`, the request's
own timestamp `msg` is at least `interval` past the recorded last-generated
instant `t0`, and the session is not already generating. The cooldown
comparison uses `msg`, never `now`: the iff holds for all values of `now`
and `msg` independently. -/
theorem admission_iff (cfg : Config) (s : PluginState) (sid : SessionId)
    (now msg t0 : ℚ) (h : lookupKey s.last_generated sid = some t0) :
    ((on_llm_req cfg s sid now msg).1 = .admitted ↔
      ((is_muted s sid now).1 = false ∧ cfg.interval ≤ msg - t0
        ∧ sid ∉ s.generating))
    ∧ ((on_llm_req cfg s sid now msg).1 = .admitted →
      (on_llm_req cfg s sid now msg).2.generating
        = insert sid s.generating) := by
  rcases hb : is_muted s sid now with ⟨b, s1⟩
  have hfields := is_muted_snd_fields s sid now
  rw [hb] at hfields
  have hg : s1.generating = s.generating := hfields.1
  have hlg : s1.last_generated = s.last_generated := hfields.2
  cases b with
  | true => simp [on_llm_req, hb]
  | false =>
    by_cases hcd : msg - t0 < cfg.interval
    · have hw : within_cooldown cfg s1 sid msg = true := by
        simp [within_cooldown, hlg, h, hcd]
      simp [on_llm_req, hb, hw, not_le.mpr hcd]
    · have hw : within_cooldown cfg s1 sid msg = false := by
        simp [within_cooldown, hlg, h, hcd]
      by_cases hgen : sid ∈ s.generating
      · simp [on_llm_req, hb, hw, hg, hgen]
      · simp [on_llm_req, hb, hw, hg, hgen, not_lt.mp hcd]

/-- Witness for C1: a session last generated at 900, not muted and not
generating, with interval 60, is admitted at request timestamp 1000. -/
theorem admission_iff_witness :
    lookupKey [("sid1", (900 : ℚ))] "sid1" = some 900
    ∧ (((on_llm_req demoConfig ⟨[], ∅, [("sid1", 900)]⟩ "sid1" 1000 1000).1
          = .admitted ↔
        ((is_muted ⟨[], ∅, [("sid1", 900)]⟩ "sid1" 1000).1 = false
          ∧ demoConfig.interval ≤ 1000 - 900
          ∧ "sid1" ∉ (⟨[], ∅, [("sid1", 900)]⟩ : PluginState).generating))
      ∧ ((on_llm_req demoConfig ⟨[], ∅, [("sid1", 900)]⟩ "sid1" 1000 1000).1
          = .admitted →
        (on_llm_req demoConfig ⟨[], ∅, [("sid1", 900)]⟩ "sid1" 1000
            1000).2.generating
          = insert "sid1" (⟨[], ∅, [("sid1", 900)]⟩ : PluginState).generating)) :=
  ⟨rfl, admission_iff demoConfig ⟨[], ∅, [("sid1", 900)]⟩ "sid1" 1000 1000 900
    rfl⟩

/-- C3 counterexample: the claim says `on_llm_resp` triggers a snapshot save
when persistence is enabled, just as mute and unmute do. With persistence
enabled, mute and unmute do save, but `on_llm_resp` contains no `_save` call:
its save flag is `false`. -/
theorem resp_no_save_counterexample :
    demoConfig.persistence_enabled = true
    ∧ (on_llm_resp demoConfig ⟨[], {"sid1"}, []⟩ "sid1" 1000).2 = false
    ∧ (mute demoConfig ⟨[], ∅, []⟩ "sid1" (some 60) 1000).2 = true
    ∧ (unmute demoConfig ⟨[("sid1", 1060)], ∅, []⟩ "sid1").2.2 = true :=
  ⟨rfl, rfl, rfl, rfl⟩

/-- C3 amended: `on_llm_resp` unconditionally removes the session from the
in-flight set (a no-op if absent) and records the completion instant even
when no matching prior admission exists, leaving `muted_until` untouched;
unlike mute and unmute it never triggers a snapshot save, even when
persistence is enabled. -/
theorem on_llm_resp_spec (cfg : Config) (s : PluginState) (sid : SessionId)
    (now : ℚ) :
    (on_llm_resp cfg s sid now).1.generating = s.generating.erase sid
    ∧ lookupKey (on_llm_resp cfg s sid now).1.last_generated sid = some now
    ∧ (on_llm_resp cfg s sid now).1.muted_until = s.muted_until
    ∧ (on_llm_resp cfg s sid now).2 = false := by
  by_cases h : sid ∈ s.generating
  · simp [on_llm_resp, h, lookupKey_setKey_self]
  · simp [on_llm_resp, h, lookupKey_setKey_self, Finset.erase_eq_of_not_mem h]

/-- C4 counterexample: the claim says a session with no recorded completion
is never rejected by the cooldown check; but the code defaults the last
completion to epoch 0, so a request with timestamp 30 and interval 60 is
rejected even though the session has no recorded completion. -/
theorem cooldown_no_history_counterexample :
    lookupKey ([] : List (SessionId × ℚ)) "sid1" = none
    ∧ within_cooldown demoConfig ⟨[], ∅, []⟩ "sid1" 30 = true
    ∧ (on_llm_req demoConfig ⟨[], ∅, []⟩ "sid1" 30 30).1
        = Decision.rejectCooldown := by
  have hw : within_cooldown demoConfig ⟨[], ∅, []⟩ "sid1" 30 = true := by
    norm_num [within_cooldown, lookupKey, demoConfig]
  exact ⟨rfl, hw, by simp [on_llm_req, is_muted, lookupKey, hw]⟩

/-- C4 amended: after `on_llm_resp` records a completion at `t0`, the
cooldown check rejects for every request time `t ∈ [t0, t0 + interval)` and
passes for every `t ≥ t0 + interval`; a session with no recorded completion
is treated as having completed at epoch 0, so for it the check passes iff
the request timestamp is at least the interval. -/
theorem cooldown_window_amended (cfg : Config) (s : PluginState)
    (sid : SessionId) (t0 t : ℚ) :
    (t0 ≤ t → t < t0 + cfg.interval →
      within_cooldown cfg (on_llm_resp cfg s sid t0).1 sid t = true)
    ∧ (t0 + cfg.interval ≤ t →
      within_cooldown cfg (on_llm_resp cfg s sid t0).1 sid t = false)
    ∧ (lookupKey s.last_generated sid = none →
      (within_cooldown cfg s sid t = false ↔ cfg.interval ≤ t)) := by
  have hl : lookupKey (on_llm_resp cfg s sid t0).1.last_generated sid
      = some t0 := by
    by_cases h : sid ∈ s.generating <;>
      simp [on_llm_resp, h, lookupKey_setKey_self]
  refine ⟨fun _ h2 => ?_, fun h => ?_, fun h => ?_⟩
  · simp only [within_cooldown, hl, Option.getD_some, decide_eq_true_eq]
    linarith
  · simp only [within_cooldown, hl, Option.getD_some, decide_eq_false_iff_not,
      not_lt]
    linarith
  · simp [within_cooldown, h, not_lt]

/-- Witness for C4 amended: with interval 60, a completion recorded at 1000
makes a request at timestamp 1030 fail the cooldown check. -/
theorem cooldown_window_amended_witness :
    ((1000 : ℚ) ≤ 1030 ∧ (1030 : ℚ) < 1000 + demoConfig.interval)
    ∧ within_cooldown demoConfig
        (on_llm_resp demoConfig ⟨[], ∅, []⟩ "sid1" 1000).1 "sid1" 1030
        = true :=
  ⟨⟨by norm_num, by norm_num [demoConfig]⟩,
    (cooldown_window_amended demoConfig ⟨[], ∅, []⟩ "sid1" 1000 1030).1
      (by norm_num) (by norm_num [demoConfig])⟩

/-- C7: saving a snapshot and loading it back reproduces exactly the two
maps, including for non-ASCII session identifiers; the blob has exactly the
two top-level fields `muted_until` and `last_generated`, and a blob with
missing fields loads as empty maps. -/
theorem snapshot_roundtrip (s : PluginState) :
    load (save s) = (s.muted_until, s.last_generated)
    ∧ (save s).map Prod.fst = ["muted_until", "last_generated"]
    ∧ load ([] : Blob) = ([], [])
    ∧ load (save ⟨[("会话🚀", 5)], ∅, [("日本語", 7)]⟩)
        = ([("会话🚀", 5)], [("日本語", 7)]) :=
  ⟨rfl, rfl, rfl, rfl⟩

/-- C9: the in-flight check-and-set as serialized by the asyncio event loop
(the begin fragment runs with no intervening await): from a state where the
session is not in flight, of two consecutive begin attempts exactly the
first succeeds; after one matching end, a new begin succeeds again. -/
theorem inflight_mutual_exclusion (s : PluginState) (sid : SessionId)
    (h : sid ∉ s.generating) :
    (tryBegin s sid).1 = true
    ∧ (tryBegin (tryBegin s sid).2 sid).1 = false
    ∧ tryBegin (endGen (tryBegin s sid).2 sid) sid
        = (true, { s with generating := insert sid s.generating }) := by
  refine ⟨by simp [tryBegin, h], by simp [tryBegin, h], ?_⟩
  simp [tryBegin, endGen, h, Finset.erase_insert h]

/-- Witness for C9 at the empty state and session `"sid1"`. -/
theorem inflight_mutual_exclusion_witness :
    "sid1" ∉ (⟨[], ∅, []⟩ : PluginState).generating
    ∧ ((tryBegin ⟨[], ∅, []⟩ "sid1").1 = true
      ∧ (tryBegin (tryBegin ⟨[], ∅, []⟩ "sid1").2 "sid1").1 = false
      ∧ tryBegin (endGen (tryBegin ⟨[], ∅, []⟩ "sid1").2 "sid1") "sid1"
          = (true, ⟨[], insert "sid1" ∅, []⟩)) :=
  ⟨by simp, inflight_mutual_exclusion ⟨[], ∅, []⟩ "sid1" (by simp)⟩

/-- Witness for C10: `mute("sid1", now=1000, duration=-100)` yields expiry
`900`, and the muted-check at `t = 1000` is already `false`. -/
theorem negative_mute_no_effect_witness :
    ((-100 : ℤ) < 0 ∧ (1000 : ℚ) ≤ 1000)
    ∧ lookupKey (mute demoConfig ⟨[], ∅, []⟩ "sid1" (some (-100))
        1000).1.muted_until "sid1" = some (1000 + ((-100 : ℤ) : ℚ))
    ∧ (is_muted (mute demoConfig ⟨[], ∅, []⟩ "sid1" (some (-100)) 1000).1
        "sid1" 1000).1 = false :=
  have h := negative_mute_no_effect demoConfig ⟨[], ∅, []⟩ "sid1" 1000 (-100)
    (by norm_num) 1000 1000 (by norm_num)
  ⟨⟨by norm_num, by norm_num⟩, h.1, h.2.2.1⟩

end LLMMute
